import Mathlib

/-!
Shallow embedding of the Scribe.dev.UI discussion-thread components:
the thread filter/sort engine and derived statistics (`ThreadsList`),
the content-item edit/delete handlers (`ContentItem`), and the
thread-creation form submit handler (`EnhancedNewThreadModal`).

JavaScript strings are modelled through `String.data : List Char`:
`trim`, `toLowerCase` and `includes` are given explicit executable
definitions (`strTrim`, `strLower`, `strIncludes`) matching the JS
semantics (trim strips leading/trailing whitespace, `includes` is
substring containment, the empty needle always matches).

`Date.getTime()` values of the ISO timestamp strings are modelled as
`Nat` millisecond timestamps stored directly in the record.

`Array.prototype.sort(cmp)` with the numeric comparators
`(a, b) => keyOf b - keyOf a` is a stable in-place sort; its output is
modelled by the stable `List.insertionSort` over the total preorder
`threadLe k a b ↔ keyOf b ≤ keyOf a`, and the in-place mutation of the
array named `filtered` — which aliases the `threads` prop whenever no
filter branch replaced it by a fresh filtered copy — is modelled by
`threadsArrayAfter`, the contents of the caller's array after the
computation.
-/

/-- Embedding of the JS character predicate used by `String.prototype.trim`. -/
def jsWhitespace (c : Char) : Bool := c.isWhitespace

/-- Embedding of `s.trim()`: drop whitespace from both ends. -/
def strTrim (s : String) : String :=
  String.mk (((s.data.dropWhile jsWhitespace).reverse.dropWhile jsWhitespace).reverse)

/-- Embedding of `s.toLowerCase()`, character by character. -/
def strLower (s : String) : String :=
  String.mk (s.data.map Char.toLower)

/-- Substring containment on character lists: does the second list occur
contiguously inside the first? -/
def containsSub (needle : List Char) : List Char → Bool
  | [] => needle.isEmpty
  | c :: rest => needle.isPrefixOf (c :: rest) || containsSub needle rest

/-- Embedding of `s.includes(q)`. -/
def strIncludes (s q : String) : Bool :=
  containsSub q.data s.data

/-- Thread record, fields as used by `ThreadsList` (spec section 3). -/
structure Thread where
  id : String
  title : String
  content : String
  authorName : String
  tags : List String
  createdAt : Nat
  updatedAt : Nat
  repliesCount : Nat
  isResolved : Bool
  threadType : String
  unitId : String
  category : String
deriving DecidableEq, Repr

/-- The three values of the `sortBy` selector. -/
inductive SortKey
  | recent
  | replies
  | created
deriving DecidableEq, Repr

/-- Query state of `ThreadsList`: the five pieces of component state the
`filteredThreads` memo depends on besides the thread list itself. -/
structure Query where
  searchQuery : String
  selectedThreadType : String
  selectedUnit : String
  selectedCategory : String
  sortBy : SortKey
deriving DecidableEq, Repr

/-- Search predicate: case-insensitive substring match against title,
content, author name, or any tag (the lowered query `q`). -/
def matchesSearch (q : String) (t : Thread) : Bool :=
  strIncludes (strLower t.title) q ||
  strIncludes (strLower t.content) q ||
  strIncludes (strLower t.authorName) q ||
  t.tags.any (fun tag => strIncludes (strLower tag) q)

/-- Search filter branch: `if (searchQuery.trim()) { ... filter ... }`.
Note the query is lowercased untrimmed, exactly as in the source. -/
def searchStage (searchQuery : String) (l : List Thread) : List Thread :=
  if strTrim searchQuery ≠ "" then
    l.filter (matchesSearch (strLower searchQuery))
  else l

/-- Thread-type filter branch. -/
def typeStage (selectedThreadType : String) (l : List Thread) : List Thread :=
  if selectedThreadType ≠ "all" then
    l.filter (fun t => t.threadType == selectedThreadType)
  else l

/-- Unit filter branch (classroom threads only). -/
def unitStage (selectedUnit : String) (l : List Thread) : List Thread :=
  if selectedUnit ≠ "all" then
    l.filter (fun t => t.threadType == "classroom" && t.unitId == selectedUnit)
  else l

/-- Category filter branch (generic threads only). -/
def categoryStage (selectedCategory : String) (l : List Thread) : List Thread :=
  if selectedCategory ≠ "all" then
    l.filter (fun t => t.threadType == "generic" && t.category == selectedCategory)
  else l

/-- Order induced by the sort comparator `(a, b) => keyOf b - keyOf a`:
`a` may come before `b` exactly when the comparator is ≤ 0, i.e. when
`keyOf b ≤ keyOf a` (descending key order). -/
def threadLe : SortKey → Thread → Thread → Prop
  | .recent, a, b => b.updatedAt ≤ a.updatedAt
  | .replies, a, b => b.repliesCount ≤ a.repliesCount
  | .created, a, b => b.createdAt ≤ a.createdAt

instance threadLe.instDecidableRel : (k : SortKey) → DecidableRel (threadLe k)
  | .recent => fun _ _ => Nat.decLe _ _
  | .replies => fun _ _ => Nat.decLe _ _
  | .created => fun _ _ => Nat.decLe _ _

instance threadLe.instIsTotal (k : SortKey) : IsTotal Thread (threadLe k) :=
  ⟨by cases k <;> exact fun a b => Nat.le_total _ _⟩

instance threadLe.instIsTrans (k : SortKey) : IsTrans Thread (threadLe k) :=
  ⟨by cases k <;> exact fun a b c hab hbc => Nat.le_trans hbc hab⟩

/-- Value of the `filteredThreads` memo: the four filter branches applied
in source order, then the stable sort by the selected comparator. -/
def filteredThreads (q : Query) (threads : List Thread) : List Thread :=
  List.insertionSort (threadLe q.sortBy)
    (categoryStage q.selectedCategory
      (unitStage q.selectedUnit
        (typeStage q.selectedThreadType
          (searchStage q.searchQuery threads))))

/-- True when at least one filter branch runs, i.e. when `filtered` has
been rebound to a fresh array before the in-place `sort` call. -/
def anyFilterActive (q : Query) : Bool :=
  decide (strTrim q.searchQuery ≠ "") ||
  decide (q.selectedThreadType ≠ "all") ||
  decide (q.selectedUnit ≠ "all") ||
  decide (q.selectedCategory ≠ "all")

/-- Contents of the caller-supplied `threads` array after the memo body
runs: `let filtered = threads` aliases the prop array, and
`filtered.sort(...)` sorts in place, so when no filter branch replaced
`filtered` by a fresh copy the input array itself ends up sorted. -/
def threadsArrayAfter (q : Query) (threads : List Thread) : List Thread :=
  if anyFilterActive q then threads else filteredThreads q threads

/-- Result record of the `threadStats` memo. The source field named
`open` is called `openCount` here (`open` is a Lean keyword). -/
structure ThreadStats where
  total : Nat
  resolved : Nat
  openCount : Nat
  classroom : Nat
  generic : Nat
deriving DecidableEq, Repr

/-- Embedding of the `threadStats` memo of `ThreadsList`. -/
def threadStats (threads : List Thread) : ThreadStats :=
  let total := threads.length
  let resolved := (threads.filter (fun t => t.isResolved)).length
  { total := total
    resolved := resolved
    openCount := total - resolved
    classroom := (threads.filter (fun t => t.threadType == "classroom")).length
    generic := (threads.filter (fun t => t.threadType == "generic")).length }

/-- Content type tags of `EducationalContent`. -/
inductive ContentType
  | NOTE
  | LINK
  | VIDEO
  | DOCUMENT
deriving DecidableEq, Repr

/-- Content record, fields as used by `ContentItem`. -/
structure EducationalContent where
  id : String
  type : ContentType
  content : String
  version : Nat
  createdAt : Nat
deriving DecidableEq, Repr

/-- The `useState` pieces of `ContentItem`, with `editError`'s
`string | null` as `Option String`. -/
structure ContentItemState where
  isExpanded : Bool
  isDeleting : Bool
  showDeleteConfirm : Bool
  isDeleted : Bool
  deleteSuccess : Bool
  isEditing : Bool
  editedContent : String
  isSaving : Bool
  saveSuccess : Bool
  editError : Option String
deriving DecidableEq, Repr

/-- Settled outcome of an awaited API promise. -/
inductive ApiOutcome
  | ok
  | error
deriving DecidableEq, Repr

/-- Network requests `ContentItem` can issue via `services/api`. -/
inductive ApiCall
  | updateContent (id : String) (content : String) (type : ContentType)
  | deleteContent (id : String)
deriving DecidableEq, Repr

/-- Embedding of `handleSave`, run to quiescence over one settled API
outcome (the 1.5 s success timeout that clears the banner and refreshes
is outside the handler and not modelled). `validUrl` is the oracle for
`new URL(u)` succeeding. Returns the final component state and the list
of API calls issued. -/
def handleSave (c : EducationalContent) (validUrl : String → Bool)
    (api : ApiOutcome) (s : ContentItemState) : ContentItemState × List ApiCall :=
  if strTrim s.editedContent = "" then
    ({ s with editError := some "Content cannot be empty" }, [])
  else if (c.type = ContentType.LINK ∨ c.type = ContentType.VIDEO) ∧
      strTrim s.editedContent ≠ "" ∧ ¬ validUrl (strTrim s.editedContent) then
    ({ s with editError := some "Please enter a valid URL" }, [])
  else
    match api with
    | .ok =>
      ({ s with isSaving := false, editError := none,
                saveSuccess := true, isEditing := false },
       [ApiCall.updateContent c.id (strTrim s.editedContent) c.type])
    | .error =>
      ({ s with isSaving := false,
                editError := some "Failed to save changes. Please try again." },
       [ApiCall.updateContent c.id (strTrim s.editedContent) c.type])

/-- Embedding of `handleDelete` over one settled API outcome (the 0.5 s
success timeout triggering `onRefresh` is not modelled). On failure the
catch block only logs to the console and resets the two flags. -/
def handleDelete (c : EducationalContent) (api : ApiOutcome)
    (s : ContentItemState) : ContentItemState × List ApiCall :=
  match api with
  | .ok =>
    ({ s with isDeleting := true, deleteSuccess := true, isDeleted := true },
     [ApiCall.deleteContent c.id])
  | .error =>
    ({ s with isDeleting := false, showDeleteConfirm := false },
     [ApiCall.deleteContent c.id])

/-- Thread kind selector of the creation modal. -/
inductive ThreadKind
  | classroom
  | generic
deriving DecidableEq, Repr

/-- One entry of the `units` prop. -/
structure UnitRef where
  id : String
  name : String
deriving DecidableEq, Repr

/-- Props of `EnhancedNewThreadModal` relevant to `handleSubmit`. -/
structure ModalProps where
  classroomId : Option String
  classroomName : Option String
  units : List UnitRef
  threadType : ThreadKind
deriving DecidableEq, Repr

/-- Form state of `EnhancedNewThreadModal` relevant to `handleSubmit`. -/
structure NewThreadFormState where
  title : String
  content : String
  selectedUnitId : String
  selectedCategory : String
  visibility : String
  tags : List String
deriving DecidableEq, Repr

/-- The `baseThreadData` object built by `handleSubmit`. -/
structure BaseThreadData where
  title : String
  content : String
  authorId : String
  authorName : String
  tags : List String
deriving DecidableEq, Repr

/-- Payload passed to the `onSubmit` callback: the spread of
`baseThreadData` with either the classroom-specific or the
generic-specific fields. -/
inductive ThreadPayload
  | classroom (base : BaseThreadData) (classroomId : Option String)
      (classroomName : String) (unitId : String) (unitName : String)
  | generic (base : BaseThreadData) (category : String)
      (visibility : String) (allowedRoles : Option (List String))
deriving DecidableEq, Repr

/-- Title carried by a payload. -/
def ThreadPayload.titleOf : ThreadPayload → String
  | .classroom base _ _ _ _ => base.title
  | .generic base _ _ _ => base.title

/-- Embedding of `handleSubmit`: `none` means the guards returned early
and `onSubmit` was never invoked; `some payload` is the argument passed
to `onSubmit`. JS string falsiness (`!title.trim()`, `!selectedUnitId`)
is emptiness. -/
def handleSubmit (p : ModalProps) (s : NewThreadFormState) : Option ThreadPayload :=
  if strTrim s.title = "" ∨ strTrim s.content = "" then none
  else if p.threadType = ThreadKind.classroom ∧ s.selectedUnitId = "" then none
  else if p.threadType = ThreadKind.generic ∧ s.selectedCategory = "" then none
  else
    let base : BaseThreadData :=
      { title := strTrim s.title
        content := strTrim s.content
        authorId := "current-user-id"
        authorName := "Current User"
        tags := s.tags }
    match p.threadType with
    | .classroom =>
      let selectedUnit := p.units.find? (fun u => u.id == s.selectedUnitId)
      some (ThreadPayload.classroom base p.classroomId
        ((p.classroomName).getD "")
        s.selectedUnitId
        (((selectedUnit.map UnitRef.name)).getD ""))
    | .generic =>
      some (ThreadPayload.generic base s.selectedCategory s.visibility
        (if s.visibility = "restricted" then some ["teacher", "admin"] else none))

/-- Source constant `TITLE_LIMIT = 150`. -/
def TITLE_LIMIT : Nat := 150

/-- Embedding of the title `onChange` handler:
`setTitle(e.target.value.slice(0, TITLE_LIMIT))`. -/
def onTitleChange (value : String) : String :=
  String.mk (value.data.take TITLE_LIMIT)

/-! ### Concrete sample data -/

/-- Sample classroom thread in unit `u1` (5 replies). -/
def thA : Thread :=
  { id := "a", title := "Alpha", content := "first", authorName := "Ann",
    tags := ["x"], createdAt := 1, updatedAt := 10, repliesCount := 5,
    isResolved := true, threadType := "classroom", unitId := "u1", category := "" }

/-- Sample generic thread whose `unitId` also reads `u1` (1 reply). -/
def thB : Thread :=
  { id := "b", title := "Beta", content := "second", authorName := "Bob",
    tags := [], createdAt := 2, updatedAt := 30, repliesCount := 1,
    isResolved := false, threadType := "generic", unitId := "u1", category := "help" }

/-- Sample classroom thread in unit `u2` (9 replies). -/
def thC : Thread :=
  { id := "c", title := "Gamma", content := "third", authorName := "Cal",
    tags := ["y"], createdAt := 3, updatedAt := 20, repliesCount := 9,
    isResolved := false, threadType := "classroom", unitId := "u2", category := "" }

/-- Sample thread list with reply counts `[5, 1, 9]`. -/
def lThreads : List Thread := [thA, thB, thC]

/-- Query with every filter inactive, sorting by reply count. -/
def qNoFilter : Query :=
  { searchQuery := "", selectedThreadType := "all", selectedUnit := "all",
    selectedCategory := "all", sortBy := .replies }

/-- Query selecting unit `u1`, other filters inactive. -/
def qUnit : Query :=
  { searchQuery := "", selectedThreadType := "all", selectedUnit := "u1",
    selectedCategory := "all", sortBy := .recent }

/-- Sample editable note content item. -/
def cNote : EducationalContent :=
  { id := "c1", type := .NOTE, content := "hello", version := 1, createdAt := 0 }

/-- Component state mid-edit with a pending non-empty edited body. -/
def sEdit : ContentItemState :=
  { isExpanded := true, isDeleting := false, showDeleteConfirm := false,
    isDeleted := false, deleteSuccess := false, isEditing := true,
    editedContent := "new text", isSaving := true, saveSuccess := false,
    editError := none }

/-- Component state mid-edit with a whitespace-only edited body. -/
def sEmptyEdit : ContentItemState :=
  { isExpanded := true, isDeleting := false, showDeleteConfirm := false,
    isDeleted := false, deleteSuccess := false, isEditing := true,
    editedContent := "   ", isSaving := false, saveSuccess := false,
    editError := none }

/-- Component state with the delete confirmation open. -/
def sDel : ContentItemState :=
  { isExpanded := true, isDeleting := true, showDeleteConfirm := true,
    isDeleted := false, deleteSuccess := false, isEditing := false,
    editedContent := "hello", isSaving := false, saveSuccess := false,
    editError := none }

/-- Classroom modal props with one unit. -/
def pClass : ModalProps :=
  { classroomId := some "c1", classroomName := some "Class",
    units := [{ id := "u1", name := "Unit 1" }], threadType := .classroom }

/-- Valid classroom form state. -/
def sForm : NewThreadFormState :=
  { title := "T", content := "B", selectedUnitId := "u1",
    selectedCategory := "", visibility := "public", tags := [] }

/-- Classroom form state with no unit selected. -/
def sFormNoUnit : NewThreadFormState :=
  { title := "T", content := "B", selectedUnitId := "",
    selectedCategory := "", visibility := "public", tags := [] }

/-- Payload `handleSubmit pClass sForm` emits. -/
def payloadClass : ThreadPayload :=
  ThreadPayload.classroom
    { title := "T", content := "B", authorId := "current-user-id",
      authorName := "Current User", tags := [] }
    (some "c1") "Class" "u1" "Unit 1"

/-! ### Helper lemmas -/

open List

theorem searchStage_sublist (q : String) (l : List Thread) :
    searchStage q l <+ l := by
  unfold searchStage
  split
  · exact List.filter_sublist l
  · exact List.Sublist.refl l

theorem typeStage_sublist (c : String) (l : List Thread) :
    typeStage c l <+ l := by
  unfold typeStage
  split
  · exact List.filter_sublist l
  · exact List.Sublist.refl l

theorem unitStage_sublist (c : String) (l : List Thread) :
    unitStage c l <+ l := by
  unfold unitStage
  split
  · exact List.filter_sublist l
  · exact List.Sublist.refl l

theorem categoryStage_sublist (c : String) (l : List Thread) :
    categoryStage c l <+ l := by
  unfold categoryStage
  split
  · exact List.filter_sublist l
  · exact List.Sublist.refl l

/-- The four filter branches chained are a sublist of the input. -/
theorem filterStages_sublist (q : Query) (l : List Thread) :
    categoryStage q.selectedCategory
      (unitStage q.selectedUnit
        (typeStage q.selectedThreadType
          (searchStage q.searchQuery l))) <+ l :=
  ((categoryStage_sublist _ _).trans
    ((unitStage_sublist _ _).trans (typeStage_sublist _ _))).trans
    (searchStage_sublist _ _)

/-- Membership in a unit-filtered list (active filter) forces the
classroom type and the selected unit id. -/
theorem mem_unitStage_active {u : String} {l : List Thread} (h : u ≠ "all")
    {t : Thread} (ht : t ∈ unitStage u l) :
    t.threadType = "classroom" ∧ t.unitId = u := by
  unfold unitStage at ht
  rw [if_pos h] at ht
  have := (List.mem_filter.1 ht).2
  simpa using this

/-! ### Claim theorems -/

/-- C1 (code bug in the source): the spec requires the filter/sort
computation to leave the input list unchanged, but when no filter branch
is active `filtered` still aliases the `threads` prop and
`filtered.sort(...)` sorts the caller's array in place: on the reply
counts `[5, 1, 9]` with every filter off, the input array ends up
reordered to `[9, 5, 1]`. -/
theorem filteredThreads_mutates_aliased_input :
    anyFilterActive qNoFilter = false ∧
    threadsArrayAfter qNoFilter lThreads = filteredThreads qNoFilter lThreads ∧
    threadsArrayAfter qNoFilter lThreads ≠ lThreads := by
  refine ⟨by decide, by decide, by decide⟩

/-- C4: with an empty or whitespace-only query the search filter branch
is skipped and the stage returns its input list unchanged. -/
theorem empty_query_searchStage_identity (q : String) (l : List Thread)
    (h : strTrim q = "") : searchStage q l = l := by
  unfold searchStage
  rw [if_neg (fun hne => hne h)]

theorem empty_query_searchStage_identity_witness :
    strTrim "   " = "" ∧ searchStage "   " [thA] = [thA] :=
  ⟨by decide, empty_query_searchStage_identity "   " [thA] (by decide)⟩

/-- C5: with the unit filter set to a specific unit, every record of the
filtered/sorted output is a classroom thread whose unit id equals the
selected unit; non-classroom threads are excluded even when their
`unitId` field matches. -/
theorem unit_filter_classroom_only (q : Query) (l : List Thread)
    (h : q.selectedUnit ≠ "all") (t : Thread) (ht : t ∈ filteredThreads q l) :
    t.threadType = "classroom" ∧ t.unitId = q.selectedUnit := by
  have h1 : t ∈ categoryStage q.selectedCategory (unitStage q.selectedUnit
      (typeStage q.selectedThreadType (searchStage q.searchQuery l))) :=
    (List.perm_insertionSort (threadLe q.sortBy) _).mem_iff.1 ht
  have h2 : t ∈ unitStage q.selectedUnit
      (typeStage q.selectedThreadType (searchStage q.searchQuery l)) :=
    (categoryStage_sublist _ _).subset h1
  exact mem_unitStage_active h h2

theorem unit_filter_classroom_only_witness :
    qUnit.selectedUnit ≠ "all" ∧
    (thA.threadType = "classroom" ∧ thA.unitId = qUnit.selectedUnit) :=
  ⟨by decide, unit_filter_classroom_only qUnit lThreads (by decide) thA (by decide)⟩

/-- C6: the filtered/sorted output is a sub-multiset of the input list:
every output record occurs in the input and none is synthesized or
duplicated. -/
theorem filteredThreads_subperm_input (q : Query) (l : List Thread) :
    filteredThreads q l <+~ l :=
  ⟨categoryStage q.selectedCategory
      (unitStage q.selectedUnit
        (typeStage q.selectedThreadType
          (searchStage q.searchQuery l))),
   (List.perm_insertionSort (threadLe q.sortBy) _).symm,
   filterStages_sublist q l⟩

/-- C7: sorting with key `recent` yields pairwise non-increasing update
timestamps, and sorting with key `replies` yields pairwise
non-increasing reply counts. -/
theorem sort_key_descending (q : Query) (l : List Thread) :
    (q.sortBy = SortKey.recent →
      (filteredThreads q l).Pairwise (fun a b => b.updatedAt ≤ a.updatedAt)) ∧
    (q.sortBy = SortKey.replies →
      (filteredThreads q l).Pairwise (fun a b => b.repliesCount ≤ a.repliesCount)) := by
  obtain ⟨qs, qt, qu, qc, qk⟩ := q
  constructor
  · intro hk
    have hk' : qk = SortKey.recent := hk
    subst hk'
    exact List.Pairwise.imp (fun h => h)
      (List.sorted_insertionSort (threadLe SortKey.recent) _)
  · intro hk
    have hk' : qk = SortKey.replies := hk
    subst hk'
    exact List.Pairwise.imp (fun h => h)
      (List.sorted_insertionSort (threadLe SortKey.replies) _)

theorem sort_key_descending_witness :
    qNoFilter.sortBy = SortKey.replies ∧
    (filteredThreads qNoFilter lThreads).Pairwise
      (fun a b => b.repliesCount ≤ a.repliesCount) ∧
    (filteredThreads qNoFilter lThreads).map Thread.repliesCount = [9, 5, 1] :=
  ⟨rfl, (sort_key_descending qNoFilter lThreads).2 rfl, by decide⟩

/-- C8: the derived statistics are the stated aggregates and are
invariant under permutation of the input list. -/
theorem threadStats_correct (l l' : List Thread) (h : l ~ l') :
    threadStats l = threadStats l' ∧
    (threadStats l).total = l.length ∧
    (threadStats l).resolved = l.countP (fun t => t.isResolved) ∧
    (threadStats l).openCount = (threadStats l).total - (threadStats l).resolved ∧
    (threadStats l).classroom = l.countP (fun t => t.threadType == "classroom") ∧
    (threadStats l).generic = l.countP (fun t => t.threadType == "generic") := by
  refine ⟨?_, rfl, ?_, rfl, ?_, ?_⟩
  · simp only [threadStats, ThreadStats.mk.injEq, h.length_eq, (h.filter _).length_eq]
  · simp [threadStats, List.countP_eq_length_filter]
  · simp [threadStats, List.countP_eq_length_filter]
  · simp [threadStats, List.countP_eq_length_filter]

theorem threadStats_correct_witness :
    threadStats [thA, thB] = threadStats [thB, thA] ∧
    (threadStats [thA, thB]).total = [thA, thB].length :=
  ⟨(threadStats_correct [thA, thB] [thB, thA] (List.Perm.swap thB thA [])).1,
   (threadStats_correct [thA, thB] [thB, thA] (List.Perm.swap thB thA [])).2.1⟩

/-- C2 counterexample: a failed delete is caught but, unlike a failed
save, surfaces no user-visible message: the resulting state merely
resets the two flags, and `editError` — the only error-message channel
the component renders — stays `none`. -/
theorem deleteFailure_no_user_visible_message :
    (handleDelete cNote ApiOutcome.error sDel).1 =
      { sDel with isDeleting := false, showDeleteConfirm := false } ∧
    (handleDelete cNote ApiOutcome.error sDel).1.editError = none :=
  ⟨rfl, rfl⟩

/-- C2 (amended): an API failure during save is caught and surfaced via
the inline `editError` message with the rest of the state intact; an API
failure during delete is caught and only resets the `isDeleting` and
`showDeleteConfirm` flags, leaving the rest intact, with no user-visible
message. -/
theorem apiFailure_caught_state_intact (c : EducationalContent)
    (validUrl : String → Bool) (s : ContentItemState)
    (hne : strTrim s.editedContent ≠ "")
    (hurl : ¬((c.type = ContentType.LINK ∨ c.type = ContentType.VIDEO) ∧
        strTrim s.editedContent ≠ "" ∧ ¬ validUrl (strTrim s.editedContent))) :
    handleSave c validUrl ApiOutcome.error s =
      ({ s with isSaving := false,
                editError := some "Failed to save changes. Please try again." },
       [ApiCall.updateContent c.id (strTrim s.editedContent) c.type]) ∧
    handleDelete c ApiOutcome.error s =
      ({ s with isDeleting := false, showDeleteConfirm := false },
       [ApiCall.deleteContent c.id]) := by
  refine ⟨?_, rfl⟩
  unfold handleSave
  rw [if_neg hne, if_neg hurl]

theorem apiFailure_caught_state_intact_witness :
    handleSave cNote (fun _ => true) ApiOutcome.error sEdit =
      ({ sEdit with isSaving := false,
                    editError := some "Failed to save changes. Please try again." },
       [ApiCall.updateContent cNote.id (strTrim sEdit.editedContent) cNote.type]) ∧
    handleDelete cNote ApiOutcome.error sEdit =
      ({ sEdit with isDeleting := false, showDeleteConfirm := false },
       [ApiCall.deleteContent cNote.id]) :=
  apiFailure_caught_state_intact cNote (fun _ => true) sEdit (by decide) (by decide)

/-- C3: a save whose edited body trims to empty sets the inline error to
exactly "Content cannot be empty", changes nothing else, and issues no
API call. -/
theorem emptyContent_save_rejected (c : EducationalContent)
    (validUrl : String → Bool) (api : ApiOutcome) (s : ContentItemState)
    (h : strTrim s.editedContent = "") :
    handleSave c validUrl api s =
      ({ s with editError := some "Content cannot be empty" }, []) := by
  unfold handleSave
  rw [if_pos h]

theorem emptyContent_save_rejected_witness :
    strTrim sEmptyEdit.editedContent = "" ∧
    handleSave cNote (fun _ => false) ApiOutcome.error sEmptyEdit =
      ({ sEmptyEdit with editError := some "Content cannot be empty" }, []) :=
  ⟨by decide,
   emptyContent_save_rejected cNote (fun _ => false) ApiOutcome.error sEmptyEdit
     (by decide)⟩

/-- C9: every classroom payload the submit handler emits carries a
non-empty unit id, every generic payload carries a non-empty category,
and when a required field is missing (or title/content trim to empty)
the `onSubmit` callback is not invoked. -/
theorem submit_payload_invariant (p : ModalProps) (s : NewThreadFormState) :
    (∀ base cid cname uid uname,
      handleSubmit p s = some (ThreadPayload.classroom base cid cname uid uname) →
        uid ≠ "") ∧
    (∀ base cat vis roles,
      handleSubmit p s = some (ThreadPayload.generic base cat vis roles) →
        cat ≠ "") ∧
    (strTrim s.title = "" ∨ strTrim s.content = "" ∨
        (p.threadType = ThreadKind.classroom ∧ s.selectedUnitId = "") ∨
        (p.threadType = ThreadKind.generic ∧ s.selectedCategory = "") →
      handleSubmit p s = none) := by
  obtain ⟨cid0, cname0, units0, ty0⟩ := p
  refine ⟨?_, ?_, ?_⟩
  · intro base cid cname uid uname h
    cases ty0
    case classroom =>
      unfold handleSubmit at h
      split_ifs at h with h1 h2 h3 h4 <;>
        first
          | exact Option.noConfusion h
          | (simp only [Option.some.injEq, ThreadPayload.classroom.injEq] at h
             obtain ⟨-, -, -, h9, -⟩ := h
             subst h9
             intro he
             exact h2 ⟨rfl, he⟩)
    case generic =>
      unfold handleSubmit at h
      split_ifs at h with h1 h2 h3 h4 <;>
        first
          | exact Option.noConfusion h
          | simp at h
  · intro base cat vis roles h
    cases ty0
    case classroom =>
      unfold handleSubmit at h
      split_ifs at h with h1 h2 h3 h4 <;>
        first
          | exact Option.noConfusion h
          | simp at h
    case generic =>
      unfold handleSubmit at h
      split_ifs at h with h1 h2 h3 h4 <;>
        first
          | exact Option.noConfusion h
          | (simp only [Option.some.injEq, ThreadPayload.generic.injEq] at h
             obtain ⟨-, h9, -, -⟩ := h
             subst h9
             intro he
             exact h3 ⟨rfl, he⟩)
  · intro hd
    unfold handleSubmit
    split_ifs with h1 h2 h3 h4 <;>
      first
        | rfl
        | (exfalso
           rcases hd with h | h | h | h
           · exact h1 (Or.inl h)
           · exact h1 (Or.inr h)
           · exact h2 h
           · exact h3 h)

theorem submit_payload_invariant_witness :
    "u1" ≠ "" ∧ handleSubmit pClass sFormNoUnit = none :=
  ⟨(submit_payload_invariant pClass sForm).1
      { title := "T", content := "B", authorId := "current-user-id",
        authorName := "Current User", tags := [] }
      (some "c1") "Class" "u1" "Unit 1" (by decide),
   (submit_payload_invariant pClass sFormNoUnit).2.2
      (Or.inr (Or.inr (Or.inl ⟨rfl, rfl⟩)))⟩

/-- Trimming never lengthens a string. -/
theorem strTrim_length_le (s : String) : (strTrim s).length ≤ s.length := by
  show (((s.data.dropWhile jsWhitespace).reverse.dropWhile jsWhitespace).reverse).length
    ≤ s.data.length
  rw [List.length_reverse]
  calc ((s.data.dropWhile jsWhitespace).reverse.dropWhile jsWhitespace).length
      ≤ (s.data.dropWhile jsWhitespace).reverse.length :=
        (List.dropWhile_sublist _).length_le
    _ = (s.data.dropWhile jsWhitespace).length := List.length_reverse _
    _ ≤ s.data.length := (List.dropWhile_sublist _).length_le

/-- Any payload the submit handler emits carries the trimmed form title. -/
theorem handleSubmit_title (p : ModalProps) (s : NewThreadFormState)
    (payload : ThreadPayload) (h : handleSubmit p s = some payload) :
    payload.titleOf = strTrim s.title := by
  obtain ⟨cid0, cname0, units0, ty0⟩ := p
  unfold handleSubmit at h
  cases ty0 <;>
    split_ifs at h <;>
      first
        | exact Option.noConfusion h
        | (simp only [Option.some.injEq] at h
           subst h
           rfl)

/-- C10: every title change stores at most the first `TITLE_LIMIT`
characters of the input, and any payload emitted from a form state
respecting that bound has a title of length at most `TITLE_LIMIT`. -/
theorem title_never_exceeds_limit (value : String) (p : ModalProps)
    (s : NewThreadFormState) (payload : ThreadPayload) :
    (onTitleChange value).length ≤ TITLE_LIMIT ∧
    (s.title.length ≤ TITLE_LIMIT → handleSubmit p s = some payload →
      payload.titleOf.length ≤ TITLE_LIMIT) := by
  constructor
  · show (value.data.take TITLE_LIMIT).length ≤ TITLE_LIMIT
    rw [List.length_take]
    exact min_le_left _ _
  · intro hlen hsub
    rw [handleSubmit_title p s payload hsub]
    exact le_trans (strTrim_length_le s.title) hlen

theorem title_never_exceeds_limit_witness :
    (onTitleChange "abc").length ≤ TITLE_LIMIT ∧
    payloadClass.titleOf.length ≤ TITLE_LIMIT :=
  ⟨(title_never_exceeds_limit "abc" pClass sForm payloadClass).1,
   (title_never_exceeds_limit "abc" pClass sForm payloadClass).2
     (by decide) (by decide)⟩
